import Mathlib

/-!
Verification development for the authenticated HTTP access layer and the
entity-state stores of the document-assistant client.

The first part embeds the axios instance of the repository (request
interceptor, response error interceptor with the module-level
isRefreshing flag, and the token holder of authService) as pure Lean
functions over an explicit state.  Network results are supplied as
explicit parameters, and every network call that the code would issue is
recorded as an event, so that ordering properties (which call carries
which Authorization header, and whether the token store is updated
before a replay) are provable.

The second part embeds the useSession / useDocuments / useQuery hooks
and the ChatPage and SessionPanel handlers as state-transition
functions.
-/

namespace DocAssistant

/-- API_CONFIG.ENDPOINTS.AUTH.REFRESH. -/
def REFRESH_ENDPOINT : String := "/auth/refresh"

/-- An outbound request as the interceptors see it: target url and the
Authorization header slot. -/
structure Request where
  url : String
  authHeader : Option String
  deriving DecidableEq, Repr

/-- A rejected axios call: the HTTP status of error.response and the url
of the request whose failure produced the error (error.config.url),
which identifies which request the surfaced error belongs to. -/
structure ErrResponse where
  status : Nat
  source : String
  deriving DecidableEq, Repr

/-- A fulfilled axios call.  value stands for the opaque payload;
access_token is the result of reading resp.data?.token?.access_token,
which is none whenever the body carries no token.access_token. -/
structure OkResponse where
  value : Nat
  access_token : Option String
  deriving DecidableEq, Repr

/-- The mutable module state of the client: the token held by
authService (_accessToken), the module-level isRefreshing flag of the
interceptor file, and whether window.location.href was set to /login. -/
structure PState where
  accessToken : Option String
  isRefreshing : Bool
  navigatedToLogin : Bool
  deriving DecidableEq, Repr

/-- Observable events, in program order: a network call leaving the
client (after the request interceptor ran), a write to the token store
(setAccessToken / clearAccessToken), and the forced navigation to
/login. -/
inductive Ev where
  | net (req : Request)
  | setTok (t : Option String)
  | nav
  deriving DecidableEq, Repr

/-- The settled value a caller of the pipeline observes. -/
inductive Outcome where
  | ok (b : OkResponse)
  | reject (e : ErrResponse)
  deriving DecidableEq, Repr

/-- How an awaited raw network result is seen by a caller when no
interceptor logic applies further. -/
def outcomeOf : Except ErrResponse OkResponse → Outcome
  | .ok b => .ok b
  | .error e => .reject e

/-- The request interceptor: read the token store and, if a token is
present, set the Authorization header to the bearer form.  It does this
for every request; there is no exemption for the refresh endpoint. -/
def requestInterceptor (tok : Option String) (req : Request) : Request :=
  match tok with
  | some t => { req with authHeader := some ("Bearer " ++ t) }
  | none => req

/-- The refresh request as written in the code, before the request
interceptor runs on it: api.post of the refresh endpoint with no
explicit headers. -/
def refreshPlain : Request :=
  { url := REFRESH_ENDPOINT, authHeader := none }

/-- The settled result of awaiting api.post on the refresh endpoint.
The refresh request is issued through the same axios instance, so its
own 401 passes through the response error interceptor: at that moment
isRefreshing is true and the _retry flag of the refresh config is not
yet set, so the interceptor marks it retried and immediately re-issues
the refresh request once; the second attempt settles the await (a
failure of the retried request is rejected unchanged).  Any non-401
failure of the first attempt is rejected unchanged.  r1 and r2 are the
raw results of the first and (if reached) second attempt. -/
def refreshSettled (r1 r2 : Except ErrResponse OkResponse) :
    Except ErrResponse OkResponse :=
  match r1 with
  | .ok b => .ok b
  | .error e => if e.status = 401 then r2 else .error e

/-- The network event of the second refresh attempt, when the first
attempt came back 401 (see refreshSettled).  The token store has not
been written in between, so the same bearer header is attached. -/
def refreshRetryEvents (tok : Option String)
    (r1 : Except ErrResponse OkResponse) : List Ev :=
  match r1 with
  | .ok _ => []
  | .error e =>
      if e.status = 401 then [.net (requestInterceptor tok refreshPlain)] else []

/-- All network events of awaiting api.post on the refresh endpoint. -/
def refreshNetEvents (tok : Option String)
    (r1 : Except ErrResponse OkResponse) : List Ev :=
  .net (requestInterceptor tok refreshPlain) :: refreshRetryEvents tok r1

/-- Resumption of the initiating error handler once its awaited refresh
call settles.  On fulfilment: if the body carries token.access_token the
store is updated (setAccessToken), isRefreshing is reset, and the
original request is re-issued through the instance, so the request
interceptor attaches the current token; the settled result of that
replay is final because its config has _retry set, so its own error
passes the 401 guard and is rejected unchanged.  On a 401 rejection:
isRefreshing is reset, the token store is cleared, the location is set
to /login, and the refresh rejection itself is rejected to the caller.
On any other rejection: isRefreshing is reset and control falls through
to rejecting the original error. -/
def resumeAfterRefresh (st1 : PState) (req : Request) (origErr : ErrResponse)
    (rres replayResp : Except ErrResponse OkResponse) :
    PState × Outcome × List Ev :=
  match rres with
  | .ok body =>
      let upd : PState × List Ev :=
        match body.access_token with
        | some t => ({ st1 with accessToken := some t }, [Ev.setTok (some t)])
        | none => (st1, [])
      let st3 : PState := { upd.1 with isRefreshing := false }
      let req2 : Request := requestInterceptor st3.accessToken req
      (st3, outcomeOf replayResp, upd.2 ++ [Ev.net req2])
  | .error re =>
      let st2 : PState := { st1 with isRefreshing := false }
      if re.status = 401 then
        ({ st2 with accessToken := none, navigatedToLogin := true },
          .reject re, [Ev.setTok none, Ev.nav])
      else
        (st2, .reject origErr, [])

/-- The response error interceptor, entered with the _retry flag of the
failed request still unset.  A non-401 error is rejected unchanged.  A
401 is marked retried; if a refresh is already in flight the request is
immediately re-issued (with whatever token the store currently holds)
and that replay settles the caller; otherwise isRefreshing is set, the
refresh call is issued and awaited, and the handler resumes as in
resumeAfterRefresh. -/
def onResponseError (st : PState) (req : Request) (err : ErrResponse)
    (r1 r2 replayResp : Except ErrResponse OkResponse) :
    PState × Outcome × List Ev :=
  if err.status = 401 then
    if st.isRefreshing then
      let req2 : Request := requestInterceptor st.accessToken req
      (st, outcomeOf replayResp, [Ev.net req2])
    else
      let st1 : PState := { st with isRefreshing := true }
      let fin := resumeAfterRefresh st1 req err (refreshSettled r1 r2) replayResp
      (fin.1, fin.2.1, refreshNetEvents st1.accessToken r1 ++ fin.2.2)
  else
    (st, .reject err, [])

/-- One logical request through the pipeline: the request interceptor
attaches the stored token, the call is issued, a fulfilled response is
returned as is, and a rejected one goes through the response error
interceptor.  firstResp is the raw result of the initial attempt, r1
and r2 the raw results of the refresh attempts (consulted only if
reached), replayResp the raw result of the single replay (consulted
only if reached). -/
def runRequest (st : PState) (req : Request)
    (firstResp r1 r2 replayResp : Except ErrResponse OkResponse) :
    PState × Outcome × List Ev :=
  let req1 : Request := requestInterceptor st.accessToken req
  match firstResp with
  | .ok b => (st, .ok b, [Ev.net req1])
  | .error err =>
      let h := onResponseError st req err r1 r2 replayResp
      (h.1, h.2.1, Ev.net req1 :: h.2.2)

/-- True of a network event targeting the given url. -/
def isNetTo (url : String) : Ev → Bool
  | .net r => r.url == url
  | _ => false

deriving instance DecidableEq for Except

/-- A waiting caller in the concurrent scenario: its request, the 401
error it received, and the raw result of its immediate replay. -/
structure Waiter where
  req : Request
  err : ErrResponse
  replayResp : Except ErrResponse OkResponse
  deriving DecidableEq, Repr

/-- The cooperative schedule for several requests that all receive a 401
before any error handler has resumed, with no refresh in flight
initially.  The single-threaded scheduler runs the handlers in order.
Phase 1: the handler of the first request finds isRefreshing unset, sets
it, issues the refresh call and suspends awaiting it.  Phase 2: each
remaining handler finds isRefreshing set and immediately re-issues its
request through the instance (the request interceptor attaches whatever
token the store holds at that moment); each suspends awaiting its own
replay, whose settled result is its final outcome.  Phase 3: the refresh
call settles and the first handler resumes as in resumeAfterRefresh.
Returns the final state, the outcome of the initiating caller, the
outcomes of the waiters in order, and the full event trace in issue
order. -/
def runConcurrent401 (st0 : PState) (initReq : Request) (initErr : ErrResponse)
    (waiters : List Waiter) (r1 r2 initReplay : Except ErrResponse OkResponse) :
    PState × Outcome × List Outcome × List Ev :=
  let stR : PState := { st0 with isRefreshing := true }
  let ev1 : List Ev := [Ev.net (requestInterceptor st0.accessToken refreshPlain)]
  let wres := waiters.map (fun w => onResponseError stR w.req w.err r1 r2 w.replayResp)
  let ev2 : List Ev := (wres.map (fun r => r.2.2)).flatten
  let wouts : List Outcome := wres.map (fun r => r.2.1)
  let fin := resumeAfterRefresh stR initReq initErr (refreshSettled r1 r2) initReplay
  let ev3 : List Ev := refreshRetryEvents st0.accessToken r1 ++ fin.2.2
  (fin.1, fin.2.1, wouts, ev1 ++ ev2 ++ ev3)

/-!
Entity stores: the useSession and useDocuments hooks, the useQuery hook,
and the ChatPage / SessionPanel handlers built on them.  Network results
of the underlying api calls are passed in explicitly; each operation is
the state transition the hook performs once its awaited call settles.
-/

/-- SessionResponse of the session feature types. -/
structure Session where
  id : String
  session_id : String
  name : String
  description : Option String
  document_count : Nat
  created_at : String
  last_activity_at : String
  is_active : Bool
  deriving DecidableEq, Repr

/-- Citation as consumed by the message list: source type, source id,
optional page number and url, snippet, and a confidence in [0,1]
(rendered as a percentage); kept rational here. -/
structure Citation where
  source_type : String
  source_id : String
  page_number : Option Nat
  url : Option String
  snippet : Option String
  confidence : Rat
  deriving DecidableEq, Repr

/-- The structured metadata attached to an assistant message by
useQuery. -/
structure MessageMetadata where
  citations : List Citation
  routing : String
  visual_decision : String
  processing_time_ms : Nat
  deriving DecidableEq, Repr

/-- SessionMessage: id, owning session, role (user or assistant),
content, optional metadata, creation timestamp. -/
structure SessionMessage where
  id : String
  session_id : String
  role : String
  content : String
  metadata : Option MessageMetadata
  created_at : String
  deriving DecidableEq, Repr

/-- DocumentResponse of the document feature. -/
structure Document where
  id : String
  session_id : String
  file_name : String
  file_size : Nat
  status : String
  error_message : Option String
  deriving DecidableEq, Repr

/-- The body of POST sessions/id/query. -/
structure QueryResponse where
  session_id : String
  answer : String
  citations : List Citation
  routing : String
  visual_decision : String
  processing_time_ms : Nat
  deriving DecidableEq, Repr

/-- A rejected api call as the hooks inspect it: whether the thrown
value is an Error carrying a response field (an axios error), and the
value of err.response?.data?.detail when present. -/
structure ApiFailure where
  hasResponse : Bool
  detail : Option String
  deriving DecidableEq, Repr

/-- The error message every hook derives from a failure: the detail
field of the response body when it is present and truthy (the empty
string is falsy in the source language, so it falls back too),
otherwise the fixed fallback of the operation. -/
def errorMessage (e : ApiFailure) (fallback : String) : String :=
  if e.hasResponse then
    match e.detail with
    | some d => if d = "" then fallback else d
    | none => fallback
  else fallback

/-- The state held by one useSession hook instance. -/
structure SessionStoreState where
  sessions : List Session
  currentSession : Option Session
  messages : List SessionMessage
  isLoading : Bool
  error : Option String
  deriving DecidableEq, Repr

/-- useSession.fetchSessions once its GET settles: on fulfilment replace
the list with the sessions field of the body (empty when absent); on
rejection record the derived message and leave the list as it was.
error was reset at entry, so it is none on the success path; isLoading
is reset in the finally block. -/
def fetchSessions (st : SessionStoreState)
    (net : Except ApiFailure (List Session)) : SessionStoreState :=
  match net with
  | .ok l => { st with sessions := l, error := none, isLoading := false }
  | .error e =>
      { st with error := some (errorMessage e "Failed to fetch sessions"),
                isLoading := false }

/-- useSession.createSession once its POST settles: on fulfilment the
returned session is prepended to the list, becomes the current
selection, and the message list is cleared; the created session is also
returned to the caller.  On rejection the derived message is recorded,
the collections are untouched, and the error is rethrown (no session is
returned). -/
def createSession (st : SessionStoreState)
    (net : Except ApiFailure Session) : SessionStoreState × Option Session :=
  match net with
  | .ok s =>
      ({ st with sessions := s :: st.sessions, currentSession := some s,
                 messages := [], error := none, isLoading := false }, some s)
  | .error e =>
      ({ st with error := some (errorMessage e "Failed to create session"),
                 isLoading := false }, none)

/-- useSession.deleteSession once its DELETE settles: on fulfilment the
session is filtered out of the list by id, and if the current selection
has that id the selection and the message list are cleared; on rejection
the derived message is recorded and nothing else changes. -/
def deleteSession (st : SessionStoreState) (sessionId : String)
    (net : Except ApiFailure Unit) : SessionStoreState :=
  match net with
  | .ok _ =>
      let st1 : SessionStoreState :=
        { st with sessions := st.sessions.filter (fun s => s.id ≠ sessionId),
                  error := none, isLoading := false }
      match st.currentSession with
      | some cs =>
          if cs.id = sessionId then
            { st1 with currentSession := none, messages := [] }
          else st1
      | none => st1
  | .error e =>
      { st with error := some (errorMessage e "Failed to delete session"),
                isLoading := false }

/-- useSession.addMessage: purely local append to the message list. -/
def addMessage (st : SessionStoreState) (m : SessionMessage) :
    SessionStoreState :=
  { st with messages := st.messages ++ [m] }

/-- The state held by one useDocuments hook instance. -/
structure DocumentsStoreState where
  documents : List Document
  isLoading : Bool
  error : Option String
  deriving DecidableEq, Repr

/-- useDocuments.fetchDocuments once its GET settles. -/
def fetchDocuments (st : DocumentsStoreState)
    (net : Except ApiFailure (List Document)) : DocumentsStoreState :=
  match net with
  | .ok l => { st with documents := l, error := none, isLoading := false }
  | .error e =>
      { st with error := some (errorMessage e "Failed to fetch documents"),
                isLoading := false }

/-- useDocuments.deleteDocument once its DELETE settles: filter the
document out by id on fulfilment, record the derived message and keep
the collection on rejection. -/
def deleteDocument (st : DocumentsStoreState) (documentId : String)
    (net : Except ApiFailure Unit) : DocumentsStoreState :=
  match net with
  | .ok _ =>
      { st with documents := st.documents.filter (fun d => d.id ≠ documentId),
                error := none, isLoading := false }
  | .error e =>
      { st with error := some (errorMessage e "Failed to delete document"),
                isLoading := false }

/-- The state ChatPage composes: its useSession instance, its
useDocuments instance, the current location path, and the toast
message. -/
structure ChatPageState where
  sessionStore : SessionStoreState
  docStore : DocumentsStoreState
  route : String
  toast : Option String
  deriving DecidableEq, Repr

/-- ChatPage.handleDeleteSession: await useSession.deleteSession (which
swallows its own failures, so the surrounding catch never fires), then
await fetchSessions to reload the list, show the success toast, and, if
the session id equals the session_id of the current selection as
captured at render time (the pre-call value, since the hook setter does
not mutate the closed-over variable), navigate to /chat.  The
useDocuments store is not touched anywhere on this path. -/
def handleDeleteSession (st : ChatPageState) (sessionId : String)
    (deleteNet : Except ApiFailure Unit)
    (refetchNet : Except ApiFailure (List Session)) : ChatPageState :=
  let s1 := deleteSession st.sessionStore sessionId deleteNet
  let s2 := fetchSessions s1 refetchNet
  let st1 : ChatPageState :=
    { st with sessionStore := s2, toast := some "Session deleted successfully" }
  match st.sessionStore.currentSession with
  | some cs => if cs.session_id = sessionId then { st1 with route := "/chat" } else st1
  | none => st1

/-- The user message ChatPage.handleAskQuery builds before issuing the
query: id from the clock, the session_id of the current selection, role
user, the query text, no metadata.  now stands for the clock reading
used for both the id and the timestamp. -/
def mkUserMessage (sessionId query now : String) : SessionMessage :=
  { id := now, session_id := sessionId, role := "user", content := query,
    metadata := none, created_at := now }

/-- The assistant message useQuery.askQuery builds from a fulfilled
query response. -/
def assistantMessageOf (qr : QueryResponse) (now : String) : SessionMessage :=
  { id := "msg_" ++ now, session_id := qr.session_id, role := "assistant",
    content := qr.answer,
    metadata := some { citations := qr.citations, routing := qr.routing,
                       visual_decision := qr.visual_decision,
                       processing_time_ms := qr.processing_time_ms },
    created_at := now }

/-- ChatPage.handleAskQuery: a no-op without a current selection;
otherwise the user message is appended at once (before the network
call), then askQuery is awaited; on fulfilment the assistant message is
appended, on rejection the handler only logs (the error string lives in
the separate useQuery store) and the message list keeps just the user
message. -/
def handleAskQuery (st : SessionStoreState) (query : String)
    (net : Except ApiFailure QueryResponse) (now : String) : SessionStoreState :=
  match st.currentSession with
  | none => st
  | some cs =>
      let st1 := addMessage st (mkUserMessage cs.session_id query now)
      match net with
      | .ok qr => addMessage st1 (assistantMessageOf qr now)
      | .error _ => st1

/-- The trim applied to the new-session title: drop leading and
trailing whitespace. -/
def jsTrim (s : String) : String :=
  String.mk
    (((s.data.dropWhile Char.isWhitespace).reverse.dropWhile
        Char.isWhitespace).reverse)

/-- SessionPanel.handleCreateSession wired to useSession.createSession:
a title whose trim is empty is rejected on the spot (an alert, no
callback, no network call); otherwise the create call is issued and the
store reconciles as in createSession.  The second component lists the
urls of the network calls issued by the handler. -/
def sessionPanelCreate (st : SessionStoreState) (title : String)
    (net : Except ApiFailure Session) : SessionStoreState × List String :=
  if jsTrim title = "" then (st, [])
  else ((createSession st net).1, ["/sessions"])

/-! Helper lemmas (shared, not tied to any one claim). -/

theorem requestInterceptor_url (t : Option String) (r : Request) :
    (requestInterceptor t r).url = r.url := by
  cases t <;> rfl

theorem onResponseError_refreshing (st : PState) (req : Request)
    (err : ErrResponse) (r1 r2 rp : Except ErrResponse OkResponse)
    (h : st.isRefreshing = true) (herr : err.status = 401) :
    onResponseError st req err r1 r2 rp =
      (st, outcomeOf rp, [Ev.net (requestInterceptor st.accessToken req)]) := by
  simp [onResponseError, h, herr]

/-- C4 counterexample: the request interceptor attaches the bearer
header to the refresh request as well; with a stored credential the
refresh request is not left untouched, so the claimed exemption for the
refresh endpoint does not exist in the code. -/
theorem refresh_request_not_exempt_counterexample :
    requestInterceptor (some "tok") refreshPlain ≠ refreshPlain ∧
    (requestInterceptor (some "tok") refreshPlain).authHeader =
      some "Bearer tok" ∧
    refreshPlain.url = "/auth/refresh" := by
  refine ⟨?_, rfl, rfl⟩
  decide

/-- C4 amended: for every outbound request, if a credential is present
in the store it is attached as an Authorization Bearer header, with no
exemption for any endpoint (in particular the refresh endpoint also
receives it); without a credential the request is left untouched. -/
theorem bearer_attached_to_every_request (t : String) (req : Request) :
    requestInterceptor (some t) req =
      { req with authHeader := some ("Bearer " ++ t) } ∧
    requestInterceptor none req = req := by
  exact ⟨rfl, rfl⟩

/-- C5: when the awaited refresh call is rejected for any reason other
than a 401 (unreachable, timeout, 5xx), the stored credential is left
unchanged, no navigation to the login page happens, and the original
401 of the request is what the caller receives. -/
theorem transient_refresh_failure_preserves_state (st : PState)
    (req : Request) (err re : ErrResponse)
    (r1 r2 replayResp : Except ErrResponse OkResponse)
    (hst : st.isRefreshing = false) (herr : err.status = 401)
    (hset : refreshSettled r1 r2 = .error re) (hre : re.status ≠ 401) :
    (runRequest st req (.error err) r1 r2 replayResp).1.accessToken =
      st.accessToken ∧
    (runRequest st req (.error err) r1 r2 replayResp).1.navigatedToLogin =
      st.navigatedToLogin ∧
    (runRequest st req (.error err) r1 r2 replayResp).2.1 = .reject err := by
  simp [runRequest, onResponseError, hst, herr, hset, resumeAfterRefresh, hre]

/-- C5 witness. -/
theorem transient_refresh_failure_preserves_state_witness :
    (runRequest { accessToken := some "old", isRefreshing := false,
                  navigatedToLogin := false }
        { url := "/a", authHeader := none } (.error { status := 401, source := "/a" })
        (.error { status := 500, source := "/auth/refresh" })
        (.ok { value := 0, access_token := none })
        (.ok { value := 9, access_token := none })).1.accessToken = some "old" ∧
    (runRequest { accessToken := some "old", isRefreshing := false,
                  navigatedToLogin := false }
        { url := "/a", authHeader := none } (.error { status := 401, source := "/a" })
        (.error { status := 500, source := "/auth/refresh" })
        (.ok { value := 0, access_token := none })
        (.ok { value := 9, access_token := none })).1.navigatedToLogin = false ∧
    (runRequest { accessToken := some "old", isRefreshing := false,
                  navigatedToLogin := false }
        { url := "/a", authHeader := none } (.error { status := 401, source := "/a" })
        (.error { status := 500, source := "/auth/refresh" })
        (.ok { value := 0, access_token := none })
        (.ok { value := 9, access_token := none })).2.1 =
      .reject { status := 401, source := "/a" } :=
  transient_refresh_failure_preserves_state
    { accessToken := some "old", isRefreshing := false, navigatedToLogin := false }
    { url := "/a", authHeader := none } { status := 401, source := "/a" }
    { status := 500, source := "/auth/refresh" }
    (.error { status := 500, source := "/auth/refresh" })
    (.ok { value := 0, access_token := none })
    (.ok { value := 9, access_token := none })
    rfl rfl (by decide) (by decide)

/-- C10: when the refresh call is fulfilled but its body carries no
token.access_token, the stored credential is left unchanged and the
original request is still replayed, the replay carrying whatever the
store already held (the old credential). -/
theorem refresh_without_token_keeps_credential_and_replays (st : PState)
    (req : Request) (err : ErrResponse) (body : OkResponse)
    (r1 r2 replayResp : Except ErrResponse OkResponse)
    (hst : st.isRefreshing = false) (herr : err.status = 401)
    (hset : refreshSettled r1 r2 = .ok body) (hbody : body.access_token = none) :
    (runRequest st req (.error err) r1 r2 replayResp).1.accessToken =
      st.accessToken ∧
    (runRequest st req (.error err) r1 r2 replayResp).2.1 =
      outcomeOf replayResp ∧
    (runRequest st req (.error err) r1 r2 replayResp).2.2 =
      Ev.net (requestInterceptor st.accessToken req)
        :: refreshNetEvents st.accessToken r1
        ++ [Ev.net (requestInterceptor st.accessToken req)] := by
  simp [runRequest, onResponseError, hst, herr, hset, resumeAfterRefresh, hbody]

/-- C10 witness. -/
theorem refresh_without_token_keeps_credential_and_replays_witness :
    (runRequest { accessToken := some "old", isRefreshing := false,
                  navigatedToLogin := false }
        { url := "/a", authHeader := none } (.error { status := 401, source := "/a" })
        (.ok { value := 7, access_token := none })
        (.ok { value := 7, access_token := none })
        (.ok { value := 9, access_token := none })).1.accessToken = some "old" ∧
    (runRequest { accessToken := some "old", isRefreshing := false,
                  navigatedToLogin := false }
        { url := "/a", authHeader := none } (.error { status := 401, source := "/a" })
        (.ok { value := 7, access_token := none })
        (.ok { value := 7, access_token := none })
        (.ok { value := 9, access_token := none })).2.1 =
      outcomeOf (.ok { value := 9, access_token := none }) ∧
    (runRequest { accessToken := some "old", isRefreshing := false,
                  navigatedToLogin := false }
        { url := "/a", authHeader := none } (.error { status := 401, source := "/a" })
        (.ok { value := 7, access_token := none })
        (.ok { value := 7, access_token := none })
        (.ok { value := 9, access_token := none })).2.2 =
      Ev.net (requestInterceptor (some "old") { url := "/a", authHeader := none })
        :: refreshNetEvents (some "old") (.ok { value := 7, access_token := none })
        ++ [Ev.net (requestInterceptor (some "old")
              { url := "/a", authHeader := none })] :=
  refresh_without_token_keeps_credential_and_replays
    { accessToken := some "old", isRefreshing := false, navigatedToLogin := false }
    { url := "/a", authHeader := none } { status := 401, source := "/a" }
    { value := 7, access_token := none }
    (.ok { value := 7, access_token := none })
    (.ok { value := 7, access_token := none })
    (.ok { value := 9, access_token := none })
    rfl rfl (by decide) rfl

/-- C3 counterexample: when the refresh call itself is rejected with
401, the error the caller receives is the refresh rejection (source is
the refresh endpoint), not the original request 401 (source would be
the original url), so the claim that the original 401 is propagated is
false as stated. -/
theorem terminal_refresh_rejects_refresh_error_counterexample :
    (runRequest { accessToken := some "old", isRefreshing := false,
                  navigatedToLogin := false }
        { url := "/a", authHeader := none } (.error { status := 401, source := "/a" })
        (.error { status := 401, source := "/auth/refresh" })
        (.error { status := 401, source := "/auth/refresh" })
        (.ok { value := 9, access_token := none })).2.1 =
      .reject { status := 401, source := "/auth/refresh" } ∧
    (runRequest { accessToken := some "old", isRefreshing := false,
                  navigatedToLogin := false }
        { url := "/a", authHeader := none } (.error { status := 401, source := "/a" })
        (.error { status := 401, source := "/auth/refresh" })
        (.error { status := 401, source := "/auth/refresh" })
        (.ok { value := 9, access_token := none })).2.1 ≠
      .reject { status := 401, source := "/a" } := by
  constructor
  · decide
  · decide

/-- C3 amended: when the awaited refresh call is rejected with 401, the
pipeline clears the stored credential, navigates to the login page, and
rejects the caller with the refresh call 401 itself (not the original
request error object). -/
theorem terminal_refresh_clears_and_navigates (st : PState)
    (req : Request) (err re : ErrResponse)
    (r1 r2 replayResp : Except ErrResponse OkResponse)
    (hst : st.isRefreshing = false) (herr : err.status = 401)
    (hset : refreshSettled r1 r2 = .error re) (hre : re.status = 401) :
    (runRequest st req (.error err) r1 r2 replayResp).1.accessToken = none ∧
    (runRequest st req (.error err) r1 r2 replayResp).1.navigatedToLogin =
      true ∧
    (runRequest st req (.error err) r1 r2 replayResp).2.1 = .reject re ∧
    (runRequest st req (.error err) r1 r2 replayResp).2.2 =
      Ev.net (requestInterceptor st.accessToken req)
        :: refreshNetEvents st.accessToken r1
        ++ [Ev.setTok none, Ev.nav] := by
  simp [runRequest, onResponseError, hst, herr, hset, resumeAfterRefresh, hre]

/-- C3 witness. -/
theorem terminal_refresh_clears_and_navigates_witness :
    (runRequest { accessToken := some "t", isRefreshing := false,
                  navigatedToLogin := false }
        { url := "/s", authHeader := none } (.error { status := 401, source := "/s" })
        (.error { status := 401, source := "/auth/refresh" })
        (.error { status := 401, source := "/auth/refresh" })
        (.ok { value := 9, access_token := none })).1.accessToken = none ∧
    (runRequest { accessToken := some "t", isRefreshing := false,
                  navigatedToLogin := false }
        { url := "/s", authHeader := none } (.error { status := 401, source := "/s" })
        (.error { status := 401, source := "/auth/refresh" })
        (.error { status := 401, source := "/auth/refresh" })
        (.ok { value := 9, access_token := none })).1.navigatedToLogin = true ∧
    (runRequest { accessToken := some "t", isRefreshing := false,
                  navigatedToLogin := false }
        { url := "/s", authHeader := none } (.error { status := 401, source := "/s" })
        (.error { status := 401, source := "/auth/refresh" })
        (.error { status := 401, source := "/auth/refresh" })
        (.ok { value := 9, access_token := none })).2.1 =
      .reject { status := 401, source := "/auth/refresh" } ∧
    (runRequest { accessToken := some "t", isRefreshing := false,
                  navigatedToLogin := false }
        { url := "/s", authHeader := none } (.error { status := 401, source := "/s" })
        (.error { status := 401, source := "/auth/refresh" })
        (.error { status := 401, source := "/auth/refresh" })
        (.ok { value := 9, access_token := none })).2.2 =
      Ev.net (requestInterceptor (some "t") { url := "/s", authHeader := none })
        :: refreshNetEvents (some "t")
             (.error { status := 401, source := "/auth/refresh" })
        ++ [Ev.setTok none, Ev.nav] :=
  terminal_refresh_clears_and_navigates
    { accessToken := some "t", isRefreshing := false, navigatedToLogin := false }
    { url := "/s", authHeader := none } { status := 401, source := "/s" }
    { status := 401, source := "/auth/refresh" }
    (.error { status := 401, source := "/auth/refresh" })
    (.error { status := 401, source := "/auth/refresh" })
    (.ok { value := 9, access_token := none })
    rfl rfl (by decide) (by decide)

theorem isNetTo_interceptor (u : String) (tok : Option String) (r : Request) :
    isNetTo u (Ev.net (requestInterceptor tok r)) = (r.url == u) := by
  cases tok <;> rfl

@[simp] theorem isNetTo_setTok (u : String) (t : Option String) :
    isNetTo u (Ev.setTok t) = false := rfl

@[simp] theorem isNetTo_nav (u : String) : isNetTo u Ev.nav = false := rfl

theorem countP_refresh_events (u : String) (hu : u ≠ REFRESH_ENDPOINT)
    (tok : Option String) (r1 : Except ErrResponse OkResponse) :
    List.countP (isNetTo u) (refreshNetEvents tok r1) = 0 := by
  have hne : (refreshPlain.url == u) = false := by
    simp only [refreshPlain, beq_eq_false_iff_ne]
    exact fun h => hu h.symm
  unfold refreshNetEvents refreshRetryEvents
  rcases r1 with e | b
  · by_cases h : e.status = 401 <;>
      simp [List.countP_cons, isNetTo_interceptor, hne, h]
  · simp [List.countP_cons, isNetTo_interceptor, hne]

theorem runRequest_countP_le_two (st : PState) (req : Request)
    (firstResp r1 r2 replayResp : Except ErrResponse OkResponse)
    (hurl : req.url ≠ REFRESH_ENDPOINT) :
    List.countP (isNetTo req.url)
      (runRequest st req firstResp r1 r2 replayResp).2.2 ≤ 2 := by
  have hself : (req.url == req.url) = true := by simp
  rcases firstResp with err | b
  · by_cases h401 : err.status = 401
    · by_cases href : st.isRefreshing
      · simp [runRequest, onResponseError, h401, href, List.countP_cons,
          isNetTo_interceptor, outcomeOf]
      · rcases hsr : refreshSettled r1 r2 with re | body
        · by_cases hre : re.status = 401 <;>
            simp [runRequest, onResponseError, h401, href, hsr,
              resumeAfterRefresh, hre, List.countP_cons, List.countP_append,
              countP_refresh_events req.url hurl, isNetTo_interceptor]
        · rcases hb : body.access_token with _ | t <;>
            simp [runRequest, onResponseError, h401, href, hsr,
              resumeAfterRefresh, hb, List.countP_cons, List.countP_append,
              countP_refresh_events req.url hurl, isNetTo_interceptor]
    · simp [runRequest, onResponseError, h401, List.countP_cons,
        isNetTo_interceptor]
  · simp [runRequest, List.countP_cons, isNetTo_interceptor]

theorem runRequest_replay401_final (st : PState) (req : Request)
    (r1 r2 : Except ErrResponse OkResponse) (err e2 : ErrResponse)
    (h401 : err.status = 401)
    (hok : st.isRefreshing = true ∨ ∃ body, refreshSettled r1 r2 = .ok body) :
    (runRequest st req (.error err) r1 r2 (.error e2)).2.1 = .reject e2 ∧
    ∃ pre rq, (runRequest st req (.error err) r1 r2 (.error e2)).2.2 =
      pre ++ [Ev.net rq] ∧ rq.url = req.url := by
  by_cases href : st.isRefreshing
  · refine ⟨?_, [Ev.net (requestInterceptor st.accessToken req)],
      requestInterceptor st.accessToken req, ?_, requestInterceptor_url _ _⟩
    · simp [runRequest, onResponseError, h401, href, outcomeOf]
    · simp [runRequest, onResponseError, h401, href]
  · rcases hok with h | ⟨body, hsr⟩
    · exact absurd h href
    · rcases hb : body.access_token with _ | t
      · refine ⟨?_, Ev.net (requestInterceptor st.accessToken req)
            :: refreshNetEvents st.accessToken r1,
          requestInterceptor st.accessToken req, ?_, requestInterceptor_url _ _⟩
        · simp [runRequest, onResponseError, h401, href, hsr,
            resumeAfterRefresh, hb, outcomeOf]
        · simp [runRequest, onResponseError, h401, href, hsr,
            resumeAfterRefresh, hb]
      · refine ⟨?_, Ev.net (requestInterceptor st.accessToken req)
            :: refreshNetEvents st.accessToken r1 ++ [Ev.setTok (some t)],
          requestInterceptor (some t) req, ?_, requestInterceptor_url _ _⟩
        · simp [runRequest, onResponseError, h401, href, hsr,
            resumeAfterRefresh, hb, outcomeOf]
        · simp [runRequest, onResponseError, h401, href, hsr,
            resumeAfterRefresh, hb]

/-- C2: a logical request is replayed at most once.  Through the whole
pipeline at most two network calls target the request url (the first
attempt and at most one replay), and whenever the single replay is
itself rejected with 401 that rejection is the final outcome of the
caller and the replay is the last network call issued: no further
refresh and no further replay follows it, so no retry loop exists. -/
theorem single_replay_no_retry_loop (st : PState) (req : Request)
    (firstResp r1 r2 replayResp : Except ErrResponse OkResponse)
    (hurl : req.url ≠ REFRESH_ENDPOINT) :
    List.countP (isNetTo req.url)
      (runRequest st req firstResp r1 r2 replayResp).2.2 ≤ 2 ∧
    (∀ err e2, firstResp = .error err → err.status = 401 →
      replayResp = .error e2 → e2.status = 401 →
      (st.isRefreshing = true ∨ ∃ body, refreshSettled r1 r2 = .ok body) →
      (runRequest st req firstResp r1 r2 replayResp).2.1 = .reject e2 ∧
      ∃ pre rq, (runRequest st req firstResp r1 r2 replayResp).2.2 =
        pre ++ [Ev.net rq] ∧ rq.url = req.url) := by
  refine ⟨runRequest_countP_le_two st req firstResp r1 r2 replayResp hurl,
    fun err e2 h1 h2 h3 _ h5 => ?_⟩
  subst h1; subst h3
  exact runRequest_replay401_final st req r1 r2 err e2 h2 h5

/-- C2 witness. -/
theorem single_replay_no_retry_loop_witness :
    (List.countP (isNetTo "/a")
      (runRequest { accessToken := some "old", isRefreshing := false,
                    navigatedToLogin := false }
        { url := "/a", authHeader := none } (.error { status := 401, source := "/a" })
        (.ok { value := 0, access_token := some "new" })
        (.ok { value := 0, access_token := some "new" })
        (.error { status := 401, source := "/a" })).2.2 ≤ 2) ∧
    ((runRequest { accessToken := some "old", isRefreshing := false,
                   navigatedToLogin := false }
        { url := "/a", authHeader := none } (.error { status := 401, source := "/a" })
        (.ok { value := 0, access_token := some "new" })
        (.ok { value := 0, access_token := some "new" })
        (.error { status := 401, source := "/a" })).2.1 =
      .reject { status := 401, source := "/a" } ∧
    ∃ pre rq,
      (runRequest { accessToken := some "old", isRefreshing := false,
                    navigatedToLogin := false }
        { url := "/a", authHeader := none } (.error { status := 401, source := "/a" })
        (.ok { value := 0, access_token := some "new" })
        (.ok { value := 0, access_token := some "new" })
        (.error { status := 401, source := "/a" })).2.2 =
        pre ++ [Ev.net rq] ∧ rq.url = "/a") := by
  have h := single_replay_no_retry_loop
    { accessToken := some "old", isRefreshing := false, navigatedToLogin := false }
    { url := "/a", authHeader := none }
    (.error { status := 401, source := "/a" })
    (.ok { value := 0, access_token := some "new" })
    (.ok { value := 0, access_token := some "new" })
    (.error { status := 401, source := "/a" })
    (by decide)
  exact ⟨h.1, h.2 { status := 401, source := "/a" } { status := 401, source := "/a" }
    rfl rfl rfl rfl
    (Or.inr ⟨{ value := 0, access_token := some "new" }, by decide⟩)⟩

theorem flatten_map_singleton {α β : Type} (f : α → List β) (g : α → β)
    (l : List α) (h : ∀ a ∈ l, f a = [g a]) :
    (l.map f).flatten = l.map g := by
  induction l with
  | nil => rfl
  | cons a l ih =>
      simp [h a (List.mem_cons_self a l),
        ih fun x hx => h x (List.mem_cons_of_mem a hx)]

/-- C1 counterexample: two requests (urls /a and /b) each receive a 401
while no refresh is in flight; the handler of /a initiates the refresh,
which succeeds with a new token; the handler of /b runs while the
refresh is in flight.  The code replays /b immediately with the old
bearer header, before the token store is written (the trace shows the
stale replay of /b strictly before the setTok event), and /b is
rejected with 401 even though the single refresh succeeded, so neither
the claimed store-update-before-replay ordering nor the claimed
all-outcomes-reflect-the-refresh property holds. -/
theorem waiter_replayed_stale_counterexample :
    runConcurrent401
        { accessToken := some "old", isRefreshing := false,
          navigatedToLogin := false }
        { url := "/a", authHeader := none } { status := 401, source := "/a" }
        [{ req := { url := "/b", authHeader := none },
           err := { status := 401, source := "/b" },
           replayResp := .error { status := 401, source := "/b" } }]
        (.ok { value := 0, access_token := some "new" })
        (.error { status := 500, source := "/auth/refresh" })
        (.ok { value := 1, access_token := none }) =
      ({ accessToken := some "new", isRefreshing := false,
         navigatedToLogin := false },
       .ok { value := 1, access_token := none },
       [.reject { status := 401, source := "/b" }],
       [Ev.net { url := "/auth/refresh", authHeader := some "Bearer old" },
        Ev.net { url := "/b", authHeader := some "Bearer old" },
        Ev.setTok (some "new"),
        Ev.net { url := "/a", authHeader := some "Bearer new" }]) ∧
    Outcome.reject { status := 401, source := "/b" } ≠
      Outcome.ok { value := 1, access_token := none } := by
  constructor
  · decide
  · decide

/-- C1 amended: for two or more requests that each receive a 401 while
no refresh is in flight, exactly one refresh network call is issued
when that call is fulfilled with a new token, and the initiating caller
is replayed only after the credential store holds the new token; but
every other caller is replayed immediately while the refresh is still
in flight, carrying the previous credential (its replay event precedes
the setTok event in the trace), and its outcome is that stale replay
result rather than the result of the refresh. -/
theorem single_refresh_waiters_replayed_stale (st0 : PState)
    (initReq : Request) (initErr : ErrResponse) (waiters : List Waiter)
    (body : OkResponse) (nt : String)
    (r2 initReplay : Except ErrResponse OkResponse)
    (hst : st0.isRefreshing = false) (herr : initErr.status = 401)
    (hw : ∀ w ∈ waiters, w.err.status = 401)
    (hbody : body.access_token = some nt) :
    runConcurrent401 st0 initReq initErr waiters (.ok body) r2 initReplay =
      ({ st0 with accessToken := some nt, isRefreshing := false },
       outcomeOf initReplay,
       waiters.map (fun w => outcomeOf w.replayResp),
       Ev.net (requestInterceptor st0.accessToken refreshPlain)
         :: (waiters.map
              (fun w => Ev.net (requestInterceptor st0.accessToken w.req))
         ++ [Ev.setTok (some nt),
             Ev.net (requestInterceptor (some nt) initReq)])) := by
  have hmap : ∀ w ∈ waiters,
      onResponseError { st0 with isRefreshing := true } w.req w.err
        (.ok body) r2 w.replayResp =
      ({ st0 with isRefreshing := true }, outcomeOf w.replayResp,
       [Ev.net (requestInterceptor st0.accessToken w.req)]) := by
    intro w hwmem
    exact onResponseError_refreshing _ _ _ _ _ _ rfl (hw w hwmem)
  unfold runConcurrent401
  have houts : (waiters.map (fun w =>
      onResponseError { st0 with isRefreshing := true } w.req w.err
        (.ok body) r2 w.replayResp)).map (fun r => r.2.1) =
      waiters.map (fun w => outcomeOf w.replayResp) := by
    rw [List.map_map]
    exact List.map_congr_left fun w hwmem => by simp [hmap w hwmem]
  have hevs : ((waiters.map (fun w =>
      onResponseError { st0 with isRefreshing := true } w.req w.err
        (.ok body) r2 w.replayResp)).map (fun r => r.2.2)).flatten =
      waiters.map
        (fun w => Ev.net (requestInterceptor st0.accessToken w.req)) := by
    rw [List.map_map]
    exact flatten_map_singleton _ _ _
      (fun w hwmem => by simp [hmap w hwmem])
  simp only [houts, hevs, refreshSettled, resumeAfterRefresh, hbody,
    refreshRetryEvents]
  rfl

/-- C1 witness. -/
theorem single_refresh_waiters_replayed_stale_witness :
    runConcurrent401
        { accessToken := some "t0", isRefreshing := false,
          navigatedToLogin := false }
        { url := "/x", authHeader := none } { status := 401, source := "/x" }
        [{ req := { url := "/y", authHeader := none },
           err := { status := 401, source := "/y" },
           replayResp := .ok { value := 3, access_token := none } },
         { req := { url := "/z", authHeader := none },
           err := { status := 401, source := "/z" },
           replayResp := .error { status := 401, source := "/z" } }]
        (.ok { value := 0, access_token := some "t1" })
        (.ok { value := 0, access_token := some "t1" })
        (.ok { value := 4, access_token := none }) =
      ({ accessToken := some "t1", isRefreshing := false,
         navigatedToLogin := false },
       outcomeOf (.ok { value := 4, access_token := none }),
       (([{ req := { url := "/y", authHeader := none },
            err := { status := 401, source := "/y" },
            replayResp := .ok { value := 3, access_token := none } },
          { req := { url := "/z", authHeader := none },
            err := { status := 401, source := "/z" },
            replayResp := .error { status := 401, source := "/z" } }] :
          List Waiter).map
         (fun w => outcomeOf w.replayResp)),
       Ev.net (requestInterceptor (some "t0") refreshPlain)
         :: ((([{ req := { url := "/y", authHeader := none },
                  err := { status := 401, source := "/y" },
                  replayResp := .ok { value := 3, access_token := none } },
                { req := { url := "/z", authHeader := none },
                  err := { status := 401, source := "/z" },
                  replayResp := .error { status := 401, source := "/z" } }] :
                List Waiter).map
               (fun w => Ev.net (requestInterceptor (some "t0") w.req)))
         ++ [Ev.setTok (some "t1"),
             Ev.net (requestInterceptor (some "t1")
               { url := "/x", authHeader := none })])) :=
  single_refresh_waiters_replayed_stale
    { accessToken := some "t0", isRefreshing := false, navigatedToLogin := false }
    { url := "/x", authHeader := none } { status := 401, source := "/x" }
    [{ req := { url := "/y", authHeader := none },
       err := { status := 401, source := "/y" },
       replayResp := .ok { value := 3, access_token := none } },
     { req := { url := "/z", authHeader := none },
       err := { status := 401, source := "/z" },
       replayResp := .error { status := 401, source := "/z" } }]
    { value := 0, access_token := some "t1" } "t1"
    (.ok { value := 0, access_token := some "t1" })
    (.ok { value := 4, access_token := none })
    rfl rfl (by decide) rfl

/-- C6 counterexample: deleting the currently selected session (here
s1, with one document in the useDocuments store) clears the selection
and the message list, but the document collection is not cleared by any
code on this path; it still holds the document of the deleted session
afterwards, so the claim that the document collection is cleared is
false. -/
theorem documents_not_cleared_counterexample :
    (handleDeleteSession
        { sessionStore :=
            { sessions := [{ id := "s1", session_id := "s1", name := "Thesis",
                             description := none, document_count := 1,
                             created_at := "t0", last_activity_at := "t0",
                             is_active := true }],
              currentSession := some
                { id := "s1", session_id := "s1", name := "Thesis",
                  description := none, document_count := 1,
                  created_at := "t0", last_activity_at := "t0",
                  is_active := true },
              messages := [{ id := "m1", session_id := "s1", role := "user",
                             content := "hi", metadata := none,
                             created_at := "t1" }],
              isLoading := false, error := none },
          docStore :=
            { documents := [{ id := "d1", session_id := "s1",
                              file_name := "f.pdf", file_size := 10,
                              status := "indexed", error_message := none }],
              isLoading := false, error := none },
          route := "/chat/s1", toast := none }
        "s1" (.ok ()) (.ok [])).sessionStore.currentSession = none ∧
    (handleDeleteSession
        { sessionStore :=
            { sessions := [{ id := "s1", session_id := "s1", name := "Thesis",
                             description := none, document_count := 1,
                             created_at := "t0", last_activity_at := "t0",
                             is_active := true }],
              currentSession := some
                { id := "s1", session_id := "s1", name := "Thesis",
                  description := none, document_count := 1,
                  created_at := "t0", last_activity_at := "t0",
                  is_active := true },
              messages := [{ id := "m1", session_id := "s1", role := "user",
                             content := "hi", metadata := none,
                             created_at := "t1" }],
              isLoading := false, error := none },
          docStore :=
            { documents := [{ id := "d1", session_id := "s1",
                              file_name := "f.pdf", file_size := 10,
                              status := "indexed", error_message := none }],
              isLoading := false, error := none },
          route := "/chat/s1", toast := none }
        "s1" (.ok ()) (.ok [])).sessionStore.messages = [] ∧
    (handleDeleteSession
        { sessionStore :=
            { sessions := [{ id := "s1", session_id := "s1", name := "Thesis",
                             description := none, document_count := 1,
                             created_at := "t0", last_activity_at := "t0",
                             is_active := true }],
              currentSession := some
                { id := "s1", session_id := "s1", name := "Thesis",
                  description := none, document_count := 1,
                  created_at := "t0", last_activity_at := "t0",
                  is_active := true },
              messages := [{ id := "m1", session_id := "s1", role := "user",
                             content := "hi", metadata := none,
                             created_at := "t1" }],
              isLoading := false, error := none },
          docStore :=
            { documents := [{ id := "d1", session_id := "s1",
                              file_name := "f.pdf", file_size := 10,
                              status := "indexed", error_message := none }],
              isLoading := false, error := none },
          route := "/chat/s1", toast := none }
        "s1" (.ok ()) (.ok [])).docStore.documents =
      [{ id := "d1", session_id := "s1", file_name := "f.pdf",
         file_size := 10, status := "indexed", error_message := none }] ∧
    ([{ id := "d1", session_id := "s1", file_name := "f.pdf",
        file_size := 10, status := "indexed", error_message := none }] :
      List Document) ≠ [] := by
  refine ⟨by decide, by decide, by decide, by decide⟩

/-- C6 amended: deleting the currently selected session removes it from
the sessions list (as reconciled by the hook, before the follow-up
refetch replaces the list with the server response), clears the current
selection and its message collection, and navigates to /chat, but
leaves the document collection unchanged; deleting a session that is
not currently selected leaves the current selection, the message
collection and the document collection untouched. -/
theorem delete_session_cascade (st : ChatPageState) (cs : Session)
    (sid : String) (refetchNet : Except ApiFailure (List Session))
    (hcur : st.sessionStore.currentSession = some cs) :
    ((cs.id = sid ∧ cs.session_id = sid) →
      (deleteSession st.sessionStore sid (.ok ())).sessions =
        st.sessionStore.sessions.filter (fun s => s.id ≠ sid) ∧
      (handleDeleteSession st sid (.ok ()) refetchNet).sessionStore.currentSession
        = none ∧
      (handleDeleteSession st sid (.ok ()) refetchNet).sessionStore.messages
        = [] ∧
      (handleDeleteSession st sid (.ok ()) refetchNet).docStore = st.docStore ∧
      (handleDeleteSession st sid (.ok ()) refetchNet).route = "/chat") ∧
    ((cs.id ≠ sid ∧ cs.session_id ≠ sid) →
      (handleDeleteSession st sid (.ok ()) refetchNet).sessionStore.currentSession
        = some cs ∧
      (handleDeleteSession st sid (.ok ()) refetchNet).sessionStore.messages
        = st.sessionStore.messages ∧
      (handleDeleteSession st sid (.ok ()) refetchNet).docStore = st.docStore ∧
      (handleDeleteSession st sid (.ok ()) refetchNet).route = st.route) := by
  constructor
  · rintro ⟨h1, h2⟩
    rcases refetchNet with f | l <;>
      simp [handleDeleteSession, deleteSession, fetchSessions, hcur, h1, h2]
  · rintro ⟨h1, h2⟩
    rcases refetchNet with f | l <;>
      simp [handleDeleteSession, deleteSession, fetchSessions, hcur, h1, h2]

/-- C6 witness. -/
theorem delete_session_cascade_witness :
    (deleteSession
        { sessions := [{ id := "a", session_id := "a", name := "A",
                         description := none, document_count := 0,
                         created_at := "t", last_activity_at := "t",
                         is_active := true }],
          currentSession := some
            { id := "a", session_id := "a", name := "A", description := none,
              document_count := 0, created_at := "t", last_activity_at := "t",
              is_active := true },
          messages := [], isLoading := false, error := none } "a" (.ok ())).sessions
      = ([{ id := "a", session_id := "a", name := "A", description := none,
            document_count := 0, created_at := "t", last_activity_at := "t",
            is_active := true }] : List Session).filter (fun s => s.id ≠ "a") ∧
    (handleDeleteSession
        { sessionStore :=
            { sessions := [{ id := "a", session_id := "a", name := "A",
                             description := none, document_count := 0,
                             created_at := "t", last_activity_at := "t",
                             is_active := true }],
              currentSession := some
                { id := "a", session_id := "a", name := "A",
                  description := none, document_count := 0, created_at := "t",
                  last_activity_at := "t", is_active := true },
              messages := [], isLoading := false, error := none },
          docStore := { documents := [], isLoading := false, error := none },
          route := "/chat/a", toast := none } "a" (.ok ()) (.ok [])).route
      = "/chat" := by
  have h := delete_session_cascade
    { sessionStore :=
        { sessions := [{ id := "a", session_id := "a", name := "A",
                         description := none, document_count := 0,
                         created_at := "t", last_activity_at := "t",
                         is_active := true }],
          currentSession := some
            { id := "a", session_id := "a", name := "A", description := none,
              document_count := 0, created_at := "t", last_activity_at := "t",
              is_active := true },
          messages := [], isLoading := false, error := none },
      docStore := { documents := [], isLoading := false, error := none },
      route := "/chat/a", toast := none }
    { id := "a", session_id := "a", name := "A", description := none,
      document_count := 0, created_at := "t", last_activity_at := "t",
      is_active := true }
    "a" (.ok []) rfl
  obtain ⟨hs, -, -, -, hr⟩ := h.1 ⟨rfl, rfl⟩
  exact ⟨hs, hr⟩

/-- C7: creating a session with a name whose trim is nonempty issues the
single create call and, when it is fulfilled, prepends the returned
session to the front of the list and makes it the current selection; a
create attempt whose name trims to the empty string is rejected locally,
with no network call issued and no state change. -/
theorem create_session_prepends_and_validates (st : SessionStoreState)
    (title : String) (net : Except ApiFailure Session) :
    (jsTrim title = "" → sessionPanelCreate st title net = (st, [])) ∧
    (jsTrim title ≠ "" → ∀ s, net = .ok s →
      sessionPanelCreate st title net =
        ({ st with sessions := s :: st.sessions, currentSession := some s,
                   messages := [], error := none, isLoading := false },
         ["/sessions"])) := by
  constructor
  · intro h
    simp [sessionPanelCreate, h]
  · intro h s hnet
    subst hnet
    simp [sessionPanelCreate, createSession, h]

/-- C7 witness. -/
theorem create_session_prepends_and_validates_witness :
    sessionPanelCreate
        { sessions := [], currentSession := none, messages := [],
          isLoading := false, error := none } "   " (.error
          { hasResponse := false, detail := none }) =
      ({ sessions := [], currentSession := none, messages := [],
         isLoading := false, error := none }, []) ∧
    sessionPanelCreate
        { sessions := [], currentSession := none, messages := [],
          isLoading := false, error := none } "Thesis"
        (.ok { id := "s1", session_id := "s1", name := "Thesis",
               description := none, document_count := 0, created_at := "t",
               last_activity_at := "t", is_active := true }) =
      ({ sessions := [{ id := "s1", session_id := "s1", name := "Thesis",
                        description := none, document_count := 0,
                        created_at := "t", last_activity_at := "t",
                        is_active := true }],
         currentSession := some
           { id := "s1", session_id := "s1", name := "Thesis",
             description := none, document_count := 0, created_at := "t",
             last_activity_at := "t", is_active := true },
         messages := [], isLoading := false, error := none },
       ["/sessions"]) := by
  constructor
  · exact (create_session_prepends_and_validates
      { sessions := [], currentSession := none, messages := [],
        isLoading := false, error := none } "   "
      (.error { hasResponse := false, detail := none })).1 (by decide)
  · exact (create_session_prepends_and_validates
      { sessions := [], currentSession := none, messages := [],
        isLoading := false, error := none } "Thesis"
      (.ok { id := "s1", session_id := "s1", name := "Thesis",
             description := none, document_count := 0, created_at := "t",
             last_activity_at := "t", is_active := true })).2 (by decide) _ rfl

/-- C8: with a current selection, asking a query appends the user
message immediately (it is present even when the call fails) and, when
the call is fulfilled, appends the assistant message after it: the list
grows by exactly the two entries user-then-assistant on success and by
exactly the user entry on failure, and in both cases the previous
messages are preserved as a prefix in their insertion order, never
reordered. -/
theorem ask_query_message_growth (st : SessionStoreState) (cs : Session)
    (query now : String) (qr : QueryResponse) (e : ApiFailure)
    (hcur : st.currentSession = some cs) :
    handleAskQuery st query (.ok qr) now =
      { st with messages := st.messages ++
          [mkUserMessage cs.session_id query now, assistantMessageOf qr now] } ∧
    handleAskQuery st query (.error e) now =
      { st with messages := st.messages ++
          [mkUserMessage cs.session_id query now] } ∧
    (mkUserMessage cs.session_id query now).role = "user" ∧
    (assistantMessageOf qr now).role = "assistant" := by
  refine ⟨?_, ?_, rfl, rfl⟩ <;>
    simp [handleAskQuery, hcur, addMessage]

/-- C8 witness. -/
theorem ask_query_message_growth_witness :
    handleAskQuery
        { sessions := [], currentSession := some
            { id := "s1", session_id := "s1", name := "A", description := none,
              document_count := 0, created_at := "t", last_activity_at := "t",
              is_active := true },
          messages := [], isLoading := false, error := none } "q"
        (.ok { session_id := "s1", answer := "ans", citations := [],
               routing := "r", visual_decision := "v",
               processing_time_ms := 5 }) "now" =
      { sessions := [], currentSession := some
          { id := "s1", session_id := "s1", name := "A", description := none,
            document_count := 0, created_at := "t", last_activity_at := "t",
            is_active := true },
        messages := [mkUserMessage "s1" "q" "now",
          assistantMessageOf
            { session_id := "s1", answer := "ans", citations := [],
              routing := "r", visual_decision := "v",
              processing_time_ms := 5 } "now"],
        isLoading := false, error := none } := by
  have h := ask_query_message_growth
    { sessions := [], currentSession := some
        { id := "s1", session_id := "s1", name := "A", description := none,
          document_count := 0, created_at := "t", last_activity_at := "t",
          is_active := true },
      messages := [], isLoading := false, error := none }
    { id := "s1", session_id := "s1", name := "A", description := none,
      document_count := 0, created_at := "t", last_activity_at := "t",
      is_active := true }
    "q" "now"
    { session_id := "s1", answer := "ans", citations := [], routing := "r",
      visual_decision := "v", processing_time_ms := 5 }
    { hasResponse := false, detail := none } rfl
  exact h.1

/-- C9: every failing mutating call of the stores records the derived
human-readable message (the truthy detail of the response body, else the
fixed fallback of the operation) and leaves the in-memory collection,
the current selection and the message list exactly as they were: no
incomplete mutation on the failure path of list, create and delete for
sessions and documents. -/
theorem failure_paths_record_error_and_keep_collections
    (st : SessionStoreState) (sd : DocumentsStoreState) (e : ApiFailure)
    (sid did d f : String) (odet : Option String) :
    (fetchSessions st (.error e)).sessions = st.sessions ∧
    (fetchSessions st (.error e)).error =
      some (errorMessage e "Failed to fetch sessions") ∧
    (createSession st (.error e)).1.sessions = st.sessions ∧
    (createSession st (.error e)).1.currentSession = st.currentSession ∧
    (createSession st (.error e)).1.messages = st.messages ∧
    (createSession st (.error e)).1.error =
      some (errorMessage e "Failed to create session") ∧
    (createSession st (.error e)).2 = none ∧
    (deleteSession st sid (.error e)).sessions = st.sessions ∧
    (deleteSession st sid (.error e)).currentSession = st.currentSession ∧
    (deleteSession st sid (.error e)).messages = st.messages ∧
    (deleteSession st sid (.error e)).error =
      some (errorMessage e "Failed to delete session") ∧
    (fetchDocuments sd (.error e)).documents = sd.documents ∧
    (fetchDocuments sd (.error e)).error =
      some (errorMessage e "Failed to fetch documents") ∧
    (deleteDocument sd did (.error e)).documents = sd.documents ∧
    (deleteDocument sd did (.error e)).error =
      some (errorMessage e "Failed to delete document") ∧
    errorMessage { hasResponse := true, detail := some d } f =
      (if d = "" then f else d) ∧
    errorMessage { hasResponse := true, detail := none } f = f ∧
    errorMessage { hasResponse := false, detail := odet } f = f := by
  refine ⟨rfl, rfl, rfl, rfl, rfl, rfl, rfl, rfl, rfl, rfl, rfl, rfl, rfl,
    rfl, rfl, rfl, rfl, rfl⟩

end DocAssistant
